import Mathlib

set_option maxRecDepth 100000
set_option linter.unusedVariables false

/-!
Shallow embedding of `src/src/telem_main.c` and `src/inc/pacsat_telem.h`
from the pacsat_telem repository.

The program is a single-threaded telemetry loop: each iteration reads the
clock, possibly appends the current telemetry frame to the WOD file
(`log_append`), possibly rotates that file, possibly samples the sensors and
broadcasts a telemetry packet, and finally exits once the cumulative file
I/O error count exceeds a fixed threshold.

Modelling conventions:
- `time_t` and `long` values are mathematical integers (`Int`); wherever the
  C code performs a conversion that depends on the machine width (the
  signed/unsigned comparison on line 160) the conversion is made explicit
  with `% 2 ^ 64`, the width of `long` and `size_t` on 64-bit Linux.
- C signed integer division truncates toward zero, which is `Int.tdiv`.
- The external collaborators `log_append` (pacsat_log.c, not in src/) and
  `send_raw_packet` (agw_tnc.c, not in src/) are environment parameters:
  an append environment maps the current working-file size to the pair
  (returned `long`, resulting file size), and the send result is an integer
  parameter of the loop step.
- Ghost instrumentation fields (event counters, event-time lists, a count
  of the verbose error printfs) record the observable actions of each
  iteration; they influence nothing.
-/

/-- Sampling period in seconds (`inc/pacsat_telem.h` line 12). -/
def PERIOD_TO_SAMPLE_TELEM_IN_SECONDS : Int := 10

/-- Period, in seconds, governing WOD stores (`inc/pacsat_telem.h` line 13). -/
def PERIOD_TO_STORE_WOD_IN_SECONDS : Int := 60

/-- Rotation size threshold in KB (`inc/pacsat_telem.h` line 14). -/
def MAX_WOD_FILE_SIZE_IN_KB : Int := 10

/-- File I/O error threshold (`inc/pacsat_telem.h` line 16). -/
def MAX_NUMBER_FILE_IO_ERRORS : Int := 5

/-- Broadcast source callsign (`inc/pacsat_telem.h` line 18). -/
def BROADCAST_CALLSIGN : String := "AMSAT-11"

/-- Time-beacon destination callsign (`inc/pacsat_telem.h` line 19). -/
def TIME_CALL : String := "TIME-1"

/-- Telemetry type 1 destination callsign (`inc/pacsat_telem.h` line 20). -/
def TELEM_TYPE_1_CALL : String := "TLMP1"

/-- Telemetry type 2 destination callsign (`inc/pacsat_telem.h` line 21). -/
def TELEM_TYPE_2_CALL : String := "TLMP2"

/-- Payload id marker for "no higher protocol" (`inc/pacsat_telem.h` line 24). -/
def PID_NO_PROTOCOL : Nat := 0xF0

/-- Modelled from the spec: `sensor_telemetry.h` is not under src/, so
`sizeof(sensor_telemetry_t)` is unknown from the sources; the spec's scenario
fixes the frame size at 32 bytes, which this development adopts. -/
def sizeof_sensor_telemetry : Nat := 32

/-- The comparison `size < sizeof(g_sensor_telemetry)` on line 160 of
telem_main.c.  `size` has type `long` and `sizeof` has type `size_t`; by the
C usual arithmetic conversions the signed operand is converted to the
unsigned type of the same width before comparing, so a negative `size` wraps
to a value near `2 ^ 64`.  (A 32-bit `long` wraps the same way at `2 ^ 32`;
the comparison result is identical for every in-range input.) -/
def size_lt_frame (size : Int) : Bool :=
  size % (2 ^ 64 : Int) < (sizeof_sensor_telemetry : Int)

/-- The rotation check `size/1024 > MAX_WOD_FILE_SIZE_IN_KB` on line 170 of
telem_main.c: both operands are signed, and C signed division truncates
toward zero (`Int.tdiv`). -/
def rotate_due (maxkb size : Int) : Bool :=
  Int.tdiv size 1024 > maxkb

/-- The store due check `(now - last_time_checked_wod) > PERIOD_TO_STORE_WOD_IN_SECONDS`
on line 156 of telem_main.c (note: strictly greater). -/
def isStoreDue (now last period : Int) : Bool :=
  now - last > period

/-- The sample due check on line 178 of telem_main.c (note: strictly greater). -/
def isSampleDue (now last period : Int) : Bool :=
  now - last > period

/-- The shutdown check `g_num_of_file_io_errors > MAX_NUMBER_FILE_IO_ERRORS`
on line 190 of telem_main.c. -/
def shouldShutDown (errors threshold : Int) : Bool :=
  errors > threshold

/-- The compile-time configuration of the loop: the four `#define` constants
of `inc/pacsat_telem.h` that parameterise its behaviour. -/
structure Config where
  sample_period : Int
  store_period : Int
  max_wod_kb : Int
  max_file_errors : Int
deriving Repr, DecidableEq

/-- The configuration actually compiled into the program. -/
def defaultConfig : Config :=
  { sample_period := PERIOD_TO_SAMPLE_TELEM_IN_SECONDS
    store_period := PERIOD_TO_STORE_WOD_IN_SECONDS
    max_wod_kb := MAX_WOD_FILE_SIZE_IN_KB
    max_file_errors := MAX_NUMBER_FILE_IO_ERRORS }

/-- A configuration with sampling switched off (period 0) and WOD storing
left at its default period. -/
def cfg_sample_off : Config :=
  { sample_period := 0
    store_period := PERIOD_TO_STORE_WOD_IN_SECONDS
    max_wod_kb := MAX_WOD_FILE_SIZE_IN_KB
    max_file_errors := MAX_NUMBER_FILE_IO_ERRORS }

/-- The mutable state of the main loop: the two last-checked timestamps
(telem_main.c lines 69-70), the cumulative error counter (line 72), the size
of the working WOD file, plus ghost instrumentation: counts and timestamps
of the observable actions, the number of verbose "could not save data"
error printfs (lines 161-162, taking verbose mode as enabled), and whether
the process is still running (false once `signal_exit` fires on line 192). -/
structure LoopState where
  last_time_checked_wod : Int
  last_time_checked_period_to_sample_telem : Int
  g_num_of_file_io_errors : Int
  wod_file_size : Int
  sample_events : Nat
  store_events : Nat
  rotations : Nat
  sample_times : List Int
  store_times : List Int
  error_prints : Nat
  running : Bool
deriving Repr, DecidableEq

/-- The state at entry to the while loop (telem_main.c lines 147-148): the
globals start at their initialisers (lines 69-72), then
`last_time_checked_wod` is set to the startup time `t0` while
`last_time_checked_period_to_sample_telem` keeps its initial value 0. -/
def init_state (t0 : Int) : LoopState :=
  { last_time_checked_wod := t0
    last_time_checked_period_to_sample_telem := 0
    g_num_of_file_io_errors := 0
    wod_file_size := 0
    sample_events := 0
    store_events := 0
    rotations := 0
    sample_times := []
    store_times := []
    error_prints := 0
    running := true }

/-- A loop state whose error counter already stands past the threshold. -/
def st_six : LoopState :=
  { init_state 0 with g_num_of_file_io_errors := 6 }

/-- An append environment describes `log_append` (pacsat_log.c, not under
src/): given the current size of the working file it returns the `long`
result handed back to the caller and the resulting file size. -/
def AppendEnv : Type := Int → Int × Int

/-- `log_append` when the destination works: the frame is appended and the
new total size of the file is returned (spec, section 4.2). -/
def append_ok : AppendEnv := fun sz =>
  (sz + (sizeof_sensor_telemetry : Int), sz + (sizeof_sensor_telemetry : Int))

/-- `log_append` against a broken destination that accepts no bytes: the
returned count 0 is short of the frame size and the file does not grow. -/
def append_fail0 : AppendEnv := fun sz => (0, sz)

/-- `log_append` failing with the conventional C error return -1
(spec, section 4.2: on failure an I/O error is returned). -/
def append_fail_neg : AppendEnv := fun sz => (-1, sz)

/-- The WOD block, telem_main.c lines 155-176: when WOD is enabled and due,
append the frame, update `last_time_checked_wod`, count an error (and print,
under verbose) when the returned size is short, then roll the file when the
returned size crosses the rotation threshold.  Rolling
(`log_add_to_directory`) renames the working file away, so the working path
is afterwards empty. -/
def store_phase (cfg : Config) (append : AppendEnv) (st : LoopState) (now : Int) :
    LoopState :=
  if cfg.store_period > 0 then
    if isStoreDue now st.last_time_checked_wod cfg.store_period then
      let res := append st.wod_file_size
      let size := res.1
      let st1 : LoopState :=
        { st with
          last_time_checked_wod := now
          wod_file_size := res.2
          store_events := st.store_events + 1
          store_times := st.store_times ++ [now]
          g_num_of_file_io_errors :=
            if size_lt_frame size then st.g_num_of_file_io_errors + 1
            else st.g_num_of_file_io_errors
          error_prints :=
            if size_lt_frame size then st.error_prints + 1 else st.error_prints }
      if rotate_due cfg.max_wod_kb size then
        { st1 with rotations := st1.rotations + 1, wod_file_size := 0 }
      else st1
    else st
  else st

/-- The sampling block, telem_main.c lines 178-186: when due, update
`last_time_checked_period_to_sample_telem`, read the sensors and broadcast
the frame.  The broadcast result (the `rc` of `tlm_send_sensor_telem`) is
discarded by the caller on line 185 and therefore does not appear here. -/
def sample_phase (cfg : Config) (st : LoopState) (now : Int) : LoopState :=
  if isSampleDue now st.last_time_checked_period_to_sample_telem cfg.sample_period then
    { st with
      last_time_checked_period_to_sample_telem := now
      sample_events := st.sample_events + 1
      sample_times := st.sample_times ++ [now] }
  else st

/-- The end-of-iteration check, telem_main.c lines 190-193: once the error
counter strictly exceeds the threshold, `signal_exit` terminates the
process. -/
def governor_phase (cfg : Config) (st : LoopState) : LoopState :=
  if shouldShutDown st.g_num_of_file_io_errors cfg.max_file_errors then
    { st with running := false }
  else st

/-- One iteration of the `while (1)` loop body (telem_main.c lines 150-195)
at clock value `now`.  The whole sampling/storing region sits inside the
`PERIOD_TO_SAMPLE_TELEM_IN_SECONDS > 0` guard of line 153, with the WOD
block nested before the sampling block.  `send_rc` is the value
`tlm_send_sensor_telem` would return this iteration; the code ignores it. -/
def loop_step (cfg : Config) (append : AppendEnv) (send_rc : Int)
    (st : LoopState) (now : Int) : LoopState :=
  if st.running then
    governor_phase cfg
      (if cfg.sample_period > 0 then
        sample_phase cfg (store_phase cfg append st now) now
      else st)
  else st

/-- Running the loop over a list of successive clock readings. -/
def loop_run (cfg : Config) (append : AppendEnv) (send_rc : Int)
    (st : LoopState) (clock : List Int) : LoopState :=
  clock.foldl (loop_step cfg append send_rc) st

/-- The clock values 0, 1, ..., n-1: a 1-second-step test clock. -/
def secs (n : Nat) : List Int :=
  (List.range n).map (fun k => (k : Int))

/-- The clock values a, a+1, ..., a+n-1. -/
def secsFrom (a n : Nat) : List Int :=
  (List.range n).map (fun k => ((a + k : Nat) : Int))

/-- The first n positive multiples of d, as integers. -/
def mul_times (d n : Nat) : List Int :=
  (List.range n).map (fun k => ((d * (k + 1) : Nat) : Int))

/-- State of the working-append run after clock values 0..99. -/
def S100 : LoopState :=
  { last_time_checked_wod := 61, last_time_checked_period_to_sample_telem := 99
    g_num_of_file_io_errors := 0, wod_file_size := 32
    sample_events := 9, store_events := 1, rotations := 0
    sample_times := mul_times 11 9, store_times := mul_times 61 1
    error_prints := 0, running := true }

/-- State of the working-append run after clock values 0..199. -/
def S200 : LoopState :=
  { last_time_checked_wod := 183, last_time_checked_period_to_sample_telem := 198
    g_num_of_file_io_errors := 0, wod_file_size := 96
    sample_events := 18, store_events := 3, rotations := 0
    sample_times := mul_times 11 18, store_times := mul_times 61 3
    error_prints := 0, running := true }

/-- State of the working-append run after clock values 0..299. -/
def S300 : LoopState :=
  { last_time_checked_wod := 244, last_time_checked_period_to_sample_telem := 297
    g_num_of_file_io_errors := 0, wod_file_size := 128
    sample_events := 27, store_events := 4, rotations := 0
    sample_times := mul_times 11 27, store_times := mul_times 61 4
    error_prints := 0, running := true }

/-- State of the working-append run after clock values 0..399. -/
def S400 : LoopState :=
  { last_time_checked_wod := 366, last_time_checked_period_to_sample_telem := 396
    g_num_of_file_io_errors := 0, wod_file_size := 192
    sample_events := 36, store_events := 6, rotations := 0
    sample_times := mul_times 11 36, store_times := mul_times 61 6
    error_prints := 0, running := true }

/-- State of the working-append run after clock values 0..499. -/
def S500 : LoopState :=
  { last_time_checked_wod := 488, last_time_checked_period_to_sample_telem := 495
    g_num_of_file_io_errors := 0, wod_file_size := 256
    sample_events := 45, store_events := 8, rotations := 0
    sample_times := mul_times 11 45, store_times := mul_times 61 8
    error_prints := 0, running := true }

/-- State of the working-append run after clock values 0..600. -/
def S601 : LoopState :=
  { last_time_checked_wod := 549, last_time_checked_period_to_sample_telem := 594
    g_num_of_file_io_errors := 0, wod_file_size := 288
    sample_events := 54, store_events := 9, rotations := 0
    sample_times := mul_times 11 54, store_times := mul_times 61 9
    error_prints := 0, running := true }

/-- State of the always-failing-append run after clock values 0..99. -/
def B100 : LoopState :=
  { last_time_checked_wod := 61, last_time_checked_period_to_sample_telem := 99
    g_num_of_file_io_errors := 1, wod_file_size := 0
    sample_events := 9, store_events := 1, rotations := 0
    sample_times := mul_times 11 9, store_times := mul_times 61 1
    error_prints := 1, running := true }

/-- State of the always-failing-append run after clock values 0..199. -/
def B200 : LoopState :=
  { last_time_checked_wod := 183, last_time_checked_period_to_sample_telem := 198
    g_num_of_file_io_errors := 3, wod_file_size := 0
    sample_events := 18, store_events := 3, rotations := 0
    sample_times := mul_times 11 18, store_times := mul_times 61 3
    error_prints := 3, running := true }

/-- State of the always-failing-append run after clock values 0..299. -/
def B300 : LoopState :=
  { last_time_checked_wod := 244, last_time_checked_period_to_sample_telem := 297
    g_num_of_file_io_errors := 4, wod_file_size := 0
    sample_events := 27, store_events := 4, rotations := 0
    sample_times := mul_times 11 27, store_times := mul_times 61 4
    error_prints := 4, running := true }

/-- State of the always-failing-append run after clock values 0..365: five
failed appends have been counted and the loop is still running. -/
def B366 : LoopState :=
  { last_time_checked_wod := 305, last_time_checked_period_to_sample_telem := 363
    g_num_of_file_io_errors := 5, wod_file_size := 0
    sample_events := 33, store_events := 5, rotations := 0
    sample_times := mul_times 11 33, store_times := mul_times 61 5
    error_prints := 5, running := true }

/-- State of the always-failing-append run after clock values 0..366: the
sixth failed append at t = 366 pushes the counter past the threshold and the
loop shuts down in that same iteration. -/
def B367 : LoopState :=
  { last_time_checked_wod := 366, last_time_checked_period_to_sample_telem := 363
    g_num_of_file_io_errors := 6, wod_file_size := 0
    sample_events := 33, store_events := 6, rotations := 0
    sample_times := mul_times 11 33, store_times := mul_times 61 6
    error_prints := 6, running := false }

/-- Invariant used for the temporal sampling claims: the recorded sample
times are pairwise more than one period apart, and none is later than the
stored last-sample timestamp. -/
def sample_inv (P : Int) (st : LoopState) : Prop :=
  List.Pairwise (fun a b => b - a > P) st.sample_times ∧
  ∀ a ∈ st.sample_times, a ≤ st.last_time_checked_period_to_sample_telem

/-- Invariant used for the startup-asymmetry claim: the stored last-store
timestamp never precedes the startup time, and each recorded store time lies
strictly more than one store period after startup. -/
def store_inv (t0 P : Int) (st : LoopState) : Prop :=
  t0 ≤ st.last_time_checked_wod ∧ ∀ t ∈ st.store_times, t > t0 + P

/-- An outbound AX.25 UI packet as handed to `send_raw_packet`
(declared in agw_tnc.h; the implementation is an external collaborator). -/
structure Packet where
  src_callsign : String
  dest_callsign : String
  pid : Nat
  payload : List Nat
deriving Repr, DecidableEq

/-- Model of `send_raw_packet`: it emits exactly one packet built from its
arguments; the embedding returns that packet. -/
def send_raw_packet (src dest : String) (pid : Nat) (payload : List Nat) : Packet :=
  { src_callsign := src, dest_callsign := dest, pid := pid, payload := payload }

/-- `tlm_send_time`, telem_main.c lines 254-265: the current time is packed
least-significant byte first into 4 bytes (`now & 0xff`, `(now >> 8) & 0xff`,
`(now >> 16) & 0xff`, `(now >> 24) & 0xff`) and sent from
BROADCAST_CALLSIGN to TIME_CALL with pid PID_NO_PROTOCOL.  `time_t` values
are nonnegative in practice and are modelled as `Nat`, on which C's shift
and mask are `>>>` and `&&&`. -/
def tlm_send_time (now : Nat) : Packet :=
  send_raw_packet BROADCAST_CALLSIGN TIME_CALL PID_NO_PROTOCOL
    [now &&& 0xff, (now >>> 8) &&& 0xff, (now >>> 16) &&& 0xff, (now >>> 24) &&& 0xff]

/-- Little-endian reconstruction of a byte list into a number. -/
def le_value (bytes : List Nat) : Nat :=
  bytes.foldr (fun b acc => b + 256 * acc) 0

/-- Running the loop over a concatenated clock is running it over the two
pieces in order. -/
lemma loop_run_append (cfg : Config) (env : AppendEnv) (r : Int) (st : LoopState)
    (l1 l2 : List Int) :
    loop_run cfg env r st (l1 ++ l2) = loop_run cfg env r (loop_run cfg env r st l1) l2 := by
  simp [loop_run, List.foldl_append]

lemma secs601_split :
    secs 601 = secsFrom 0 100 ++ (secsFrom 100 100 ++ (secsFrom 200 100 ++
      (secsFrom 300 100 ++ (secsFrom 400 100 ++ secsFrom 500 101)))) := by rfl

lemma run_ok_1 : loop_run defaultConfig append_ok 0 (init_state 0) (secsFrom 0 100) = S100 := by rfl

lemma run_ok_2 : loop_run defaultConfig append_ok 0 S100 (secsFrom 100 100) = S200 := by rfl

lemma run_ok_3 : loop_run defaultConfig append_ok 0 S200 (secsFrom 200 100) = S300 := by rfl

lemma run_ok_4 : loop_run defaultConfig append_ok 0 S300 (secsFrom 300 100) = S400 := by rfl

lemma run_ok_5 : loop_run defaultConfig append_ok 0 S400 (secsFrom 400 100) = S500 := by rfl

lemma run_ok_6 : loop_run defaultConfig append_ok 0 S500 (secsFrom 500 101) = S601 := by rfl

/-- The spec's success scenario: driving the loop on a 1-second clock from
t = 0 to t = 600 with a working append environment. -/
lemma run601_eq : loop_run defaultConfig append_ok 0 (init_state 0) (secs 601) = S601 := by
  rw [secs601_split, loop_run_append, run_ok_1, loop_run_append, run_ok_2,
    loop_run_append, run_ok_3, loop_run_append, run_ok_4, loop_run_append,
    run_ok_5, run_ok_6]

lemma secs366_split :
    secs 366 = secsFrom 0 100 ++ (secsFrom 100 100 ++ (secsFrom 200 100 ++ secsFrom 300 66)) := by
  rfl

lemma run_f_1 : loop_run defaultConfig append_fail0 0 (init_state 0) (secsFrom 0 100) = B100 := by rfl

lemma run_f_2 : loop_run defaultConfig append_fail0 0 B100 (secsFrom 100 100) = B200 := by rfl

lemma run_f_3 : loop_run defaultConfig append_fail0 0 B200 (secsFrom 200 100) = B300 := by rfl

lemma run_f_4 : loop_run defaultConfig append_fail0 0 B300 (secsFrom 300 66) = B366 := by rfl

/-- After the clock has run 0..365 against a broken destination, exactly five
failed appends have been counted and the loop still runs. -/
lemma runB366_eq : loop_run defaultConfig append_fail0 0 (init_state 0) (secs 366) = B366 := by
  rw [secs366_split, loop_run_append, run_f_1, loop_run_append, run_f_2,
    loop_run_append, run_f_3, run_f_4]

lemma secs367_eq : secs 367 = secs 366 ++ [(366 : Int)] := by rfl

/-- One more second: the sixth failed append fires at t = 366 and the loop
exits in that iteration. -/
lemma runB367_eq : loop_run defaultConfig append_fail0 0 (init_state 0) (secs 367) = B367 := by
  rw [secs367_eq, loop_run_append, runB366_eq]
  rfl

/-- The end-of-iteration governor touches only the running flag. -/
lemma governor_phase_fields (cfg : Config) (st : LoopState) :
    (governor_phase cfg st).sample_times = st.sample_times ∧
    (governor_phase cfg st).last_time_checked_period_to_sample_telem =
      st.last_time_checked_period_to_sample_telem ∧
    (governor_phase cfg st).store_times = st.store_times ∧
    (governor_phase cfg st).last_time_checked_wod = st.last_time_checked_wod ∧
    (governor_phase cfg st).store_events = st.store_events ∧
    (governor_phase cfg st).sample_events = st.sample_events ∧
    (governor_phase cfg st).g_num_of_file_io_errors = st.g_num_of_file_io_errors := by
  unfold governor_phase
  split <;> exact ⟨rfl, rfl, rfl, rfl, rfl, rfl, rfl⟩

/-- The WOD block never touches the sampling side of the state. -/
lemma store_phase_fields (cfg : Config) (env : AppendEnv) (st : LoopState) (now : Int) :
    (store_phase cfg env st now).sample_times = st.sample_times ∧
    (store_phase cfg env st now).last_time_checked_period_to_sample_telem =
      st.last_time_checked_period_to_sample_telem ∧
    (store_phase cfg env st now).sample_events = st.sample_events ∧
    (store_phase cfg env st now).running = st.running := by
  unfold store_phase
  split
  · split
    · dsimp only
      split <;> exact ⟨rfl, rfl, rfl, rfl⟩
    · exact ⟨rfl, rfl, rfl, rfl⟩
  · exact ⟨rfl, rfl, rfl, rfl⟩

/-- The sampling block never touches the WOD side of the state. -/
lemma sample_phase_fields (cfg : Config) (st : LoopState) (now : Int) :
    (sample_phase cfg st now).store_times = st.store_times ∧
    (sample_phase cfg st now).last_time_checked_wod = st.last_time_checked_wod ∧
    (sample_phase cfg st now).store_events = st.store_events ∧
    (sample_phase cfg st now).g_num_of_file_io_errors = st.g_num_of_file_io_errors ∧
    (sample_phase cfg st now).running = st.running := by
  unfold sample_phase
  split <;> exact ⟨rfl, rfl, rfl, rfl, rfl⟩

/-- With the store period configured nonpositive, the WOD block is skipped
entirely. -/
lemma store_phase_of_store_off (cfg : Config) (env : AppendEnv) (st : LoopState) (now : Int)
    (h : cfg.store_period ≤ 0) : store_phase cfg env st now = st := by
  unfold store_phase
  rw [if_neg (by omega)]

lemma sample_inv_of_fields {P : Int} {a b : LoopState}
    (h1 : a.sample_times = b.sample_times)
    (h2 : a.last_time_checked_period_to_sample_telem =
      b.last_time_checked_period_to_sample_telem)
    (h : sample_inv P b) : sample_inv P a := by
  refine ⟨h1 ▸ h.1, ?_⟩
  intro t ht
  rw [h2]
  exact h.2 t (h1 ▸ ht)

lemma sample_phase_inv (cfg : Config) (st : LoopState) (now : Int)
    (hP : 0 < cfg.sample_period) (h : sample_inv cfg.sample_period st) :
    sample_inv cfg.sample_period (sample_phase cfg st now) := by
  unfold sample_phase
  split
  case isTrue hdue =>
    have hgt : now - st.last_time_checked_period_to_sample_telem > cfg.sample_period := by
      simpa [isSampleDue] using hdue
    constructor
    · refine List.pairwise_append.mpr ⟨h.1, List.pairwise_singleton _ _, ?_⟩
      intro a ha b hb
      have hb1 : b = now := by simpa using hb
      subst hb1
      have := h.2 a ha
      omega
    · intro a ha
      rcases List.mem_append.mp ha with ha | ha
      · have := h.2 a ha
        simp only
        omega
      · have ha1 : a = now := by simpa using ha
        subst ha1
        simp
  case isFalse => exact h

lemma loop_step_sample_inv (cfg : Config) (env : AppendEnv) (r : Int) (st : LoopState)
    (now : Int) (h : sample_inv cfg.sample_period st) :
    sample_inv cfg.sample_period (loop_step cfg env r st now) := by
  unfold loop_step
  split
  · split
    case isTrue hP =>
      refine sample_inv_of_fields (governor_phase_fields cfg _).1 (governor_phase_fields cfg _).2.1 ?_
      refine sample_phase_inv cfg _ now hP ?_
      exact sample_inv_of_fields (store_phase_fields cfg env st now).1
        (store_phase_fields cfg env st now).2.1 h
    case isFalse =>
      exact sample_inv_of_fields (governor_phase_fields cfg st).1
        (governor_phase_fields cfg st).2.1 h
  · exact h

lemma loop_run_sample_inv (cfg : Config) (env : AppendEnv) (r : Int) (clock : List Int) :
    ∀ st : LoopState, sample_inv cfg.sample_period st →
      sample_inv cfg.sample_period (loop_run cfg env r st clock) := by
  induction clock with
  | nil => intro st h; exact h
  | cons t ts ih =>
      intro st h
      exact ih _ (loop_step_sample_inv cfg env r st t h)

lemma store_inv_of_fields {t0 P : Int} {a b : LoopState}
    (h1 : a.store_times = b.store_times)
    (h2 : a.last_time_checked_wod = b.last_time_checked_wod)
    (h : store_inv t0 P b) : store_inv t0 P a := by
  refine ⟨h2 ▸ h.1, ?_⟩
  intro t ht
  exact h.2 t (h1 ▸ ht)

lemma store_phase_store_inv (cfg : Config) (env : AppendEnv) (st : LoopState)
    (now t0 : Int) (h : store_inv t0 cfg.store_period st) :
    store_inv t0 cfg.store_period (store_phase cfg env st now) := by
  unfold store_phase
  split
  case isTrue hper =>
    split
    case isTrue hdue =>
      have hgt : now - st.last_time_checked_wod > cfg.store_period := by
        simpa [isStoreDue] using hdue
      have hlast := h.1
      have hnow : now > t0 + cfg.store_period := by omega
      dsimp only
      split
      all_goals
        refine ⟨by simp only; omega, ?_⟩
        intro t ht
        simp only [List.mem_append] at ht
        rcases ht with ht | ht
        · exact h.2 t ht
        · have ht1 : t = now := by simpa using ht
          omega
    case isFalse => exact h
  case isFalse => exact h

lemma loop_step_store_inv (cfg : Config) (env : AppendEnv) (r : Int) (st : LoopState)
    (now t0 : Int) (h : store_inv t0 cfg.store_period st) :
    store_inv t0 cfg.store_period (loop_step cfg env r st now) := by
  unfold loop_step
  split
  · split
    case isTrue hP =>
      refine store_inv_of_fields (governor_phase_fields cfg _).2.2.1
        (governor_phase_fields cfg _).2.2.2.1 ?_
      refine store_inv_of_fields (sample_phase_fields cfg _ now).1
        (sample_phase_fields cfg _ now).2.1 ?_
      exact store_phase_store_inv cfg env st now t0 h
    case isFalse =>
      exact store_inv_of_fields (governor_phase_fields cfg st).2.2.1
        (governor_phase_fields cfg st).2.2.2.1 h
  · exact h

lemma loop_run_store_inv (cfg : Config) (env : AppendEnv) (r : Int) (clock : List Int)
    (t0 : Int) : ∀ st : LoopState, store_inv t0 cfg.store_period st →
      store_inv t0 cfg.store_period (loop_run cfg env r st clock) := by
  induction clock with
  | nil => intro st h; exact h
  | cons t ts ih =>
      intro st h
      exact ih _ (loop_step_store_inv cfg env r st t t0 h)

/-- Masking with 0xff keeps the low 8 bits. -/
lemma land_255 (x : Nat) : x &&& 255 = x % 256 := by
  apply Nat.eq_of_testBit_eq
  intro i
  have h255 : (255 : Nat) = 2 ^ 8 - 1 := by norm_num
  have h256 : (256 : Nat) = 2 ^ 8 := by norm_num
  rw [Nat.testBit_and, h255, Nat.testBit_two_pow_sub_one, h256, Nat.testBit_mod_two_pow]
  by_cases h : i < 8 <;> simp [h]

/-- C byte extraction `(x >> k) & 0xff` on nonnegative values. -/
lemma shift_byte (x k : Nat) : (x >>> k) &&& 255 = x / 2 ^ k % 256 := by
  rw [land_255, Nat.shiftRight_eq_div_pow]

/-- When the governor stops a running loop, the error counter it saw exceeds
the threshold (and is preserved in the result). -/
lemma governor_phase_stop (cfg : Config) (x : LoopState) (hx : x.running = true)
    (h : (governor_phase cfg x).running = false) :
    shouldShutDown (governor_phase cfg x).g_num_of_file_io_errors cfg.max_file_errors = true := by
  unfold governor_phase at h ⊢
  by_cases hc : shouldShutDown x.g_num_of_file_io_errors cfg.max_file_errors = true
  · rw [if_pos hc]
    exact hc
  · rw [if_neg hc] at h
    exact absurd h (by simp [hx])

/-- C1 counterexample: the claim says each due check reports due exactly when
`now - last >= period`; at `now - last` equal to the configured period the
code's checks (strict `>` on telem_main.c lines 156 and 178) report NOT due. -/
theorem C1_counterexample :
    isSampleDue 10 0 PERIOD_TO_SAMPLE_TELEM_IN_SECONDS = false ∧
    (10 : Int) - 0 ≥ PERIOD_TO_SAMPLE_TELEM_IN_SECONDS ∧
    isStoreDue 60 0 PERIOD_TO_STORE_WOD_IN_SECONDS = false ∧
    (60 : Int) - 0 ≥ PERIOD_TO_STORE_WOD_IN_SECONDS := by
  refine ⟨by decide, by decide, by decide, by decide⟩

/-- C1 (amended): for every clock value, last-event timestamp and period, the
sample-due check and the store-due check each report the action due exactly
when `now - last > period`, that is when at least `period + 1` seconds have
elapsed; an action becomes due `period + 1` seconds after it last fired. -/
theorem C1_due_checks_strict (now last period : Int) :
    (isSampleDue now last period = true ↔ now - last ≥ period + 1) ∧
    (isStoreDue now last period = true ↔ now - last ≥ period + 1) := by
  constructor <;> simp [isSampleDue, isStoreDue] <;> omega

/-- C2: the claim is right and the code is wrong.  `log_append` signals
failure with a value below the frame size, and the spec routes every failed
append into the error counter; but the comparison on telem_main.c line 160
compares the signed `long` against the unsigned `sizeof`, so a negative
error return (the conventional -1) wraps to `2^64 - 1`, the failure branch
is skipped, and `g_num_of_file_io_errors` stays unchanged. -/
theorem C2_signed_unsigned_bug :
    ((-1 : Int) < (sizeof_sensor_telemetry : Int)) ∧
    size_lt_frame (-1) = false ∧
    (loop_step defaultConfig append_fail_neg 0 (init_state 0) 61).store_events = 1 ∧
    (loop_step defaultConfig append_fail_neg 0 (init_state 0) 61).g_num_of_file_io_errors = 0 ∧
    (loop_step defaultConfig append_fail_neg 0 (init_state 0) 61).error_prints = 0 := by
  refine ⟨by decide, by decide, by decide, by decide, by decide⟩

/-- C3: shutdown fires exactly when the cumulative counter strictly exceeds
MAX_NUMBER_FILE_IO_ERRORS, i.e. reaches threshold + 1; on a 1-second clock
with every append failing (short write of 0 bytes), after the fifth failed
append (t = 0..365) the loop still runs with counter 5, and the sixth failed
append at t = 366 exits the loop with counter 6. -/
theorem C3_failure_threshold :
    (∀ errors : Int, shouldShutDown errors MAX_NUMBER_FILE_IO_ERRORS = true ↔
      errors ≥ MAX_NUMBER_FILE_IO_ERRORS + 1) ∧
    (loop_run defaultConfig append_fail0 0 (init_state 0) (secs 366)).store_events = 5 ∧
    (loop_run defaultConfig append_fail0 0 (init_state 0) (secs 366)).g_num_of_file_io_errors = 5 ∧
    (loop_run defaultConfig append_fail0 0 (init_state 0) (secs 366)).running = true ∧
    (loop_run defaultConfig append_fail0 0 (init_state 0) (secs 367)).store_events = 6 ∧
    (loop_run defaultConfig append_fail0 0 (init_state 0) (secs 367)).g_num_of_file_io_errors = 6 ∧
    (loop_run defaultConfig append_fail0 0 (init_state 0) (secs 367)).running = false := by
  refine ⟨?_, ?_, ?_, ?_, ?_, ?_, ?_⟩
  · intro e
    simp [shouldShutDown, MAX_NUMBER_FILE_IO_ERRORS]
    omega
  · rw [runB366_eq]; rfl
  · rw [runB366_eq]; rfl
  · rw [runB366_eq]; rfl
  · rw [runB367_eq]; rfl
  · rw [runB367_eq]; rfl
  · rw [runB367_eq]; rfl

/-- C4 counterexample: in the spec's scenario (1-second clock t = 0..600,
working append environment, default configuration) the loop performs 54
sample/broadcast events and 9 store events, not the claimed 60 and 10,
because both due checks are strict. -/
theorem C4_scenario_counterexample :
    (loop_run defaultConfig append_ok 0 (init_state 0) (secs 601)).sample_events = 54 ∧
    (loop_run defaultConfig append_ok 0 (init_state 0) (secs 601)).store_events = 9 ∧
    (loop_run defaultConfig append_ok 0 (init_state 0) (secs 601)).sample_events ≠ 60 ∧
    (loop_run defaultConfig append_ok 0 (init_state 0) (secs 601)).store_events ≠ 10 := by
  rw [run601_eq]
  refine ⟨rfl, rfl, by decide, by decide⟩

/-- C4 (amended): in the spec's scenario the loop performs exactly 54
sample/broadcast events (every 11 seconds) and exactly 9 store events (every
61 seconds), the working file grows by 32 bytes per store event to 288
bytes, no rotation occurs, the failure counter stays 0, and the loop is
still running at t = 600. -/
theorem C4_scenario :
    (loop_run defaultConfig append_ok 0 (init_state 0) (secs 601)).sample_events = 54 ∧
    (loop_run defaultConfig append_ok 0 (init_state 0) (secs 601)).store_events = 9 ∧
    (loop_run defaultConfig append_ok 0 (init_state 0) (secs 601)).wod_file_size = 288 ∧
    (loop_run defaultConfig append_ok 0 (init_state 0) (secs 601)).wod_file_size =
      (sizeof_sensor_telemetry : Int) *
        (loop_run defaultConfig append_ok 0 (init_state 0) (secs 601)).store_events ∧
    (loop_run defaultConfig append_ok 0 (init_state 0) (secs 601)).rotations = 0 ∧
    (loop_run defaultConfig append_ok 0 (init_state 0) (secs 601)).g_num_of_file_io_errors = 0 ∧
    (loop_run defaultConfig append_ok 0 (init_state 0) (secs 601)).running = true := by
  rw [run601_eq]
  refine ⟨rfl, rfl, rfl, by decide, rfl, rfl, rfl⟩

/-- C5: rotation is invoked exactly when the size returned by the append
satisfies `size/1024 > MAX_WOD_FILE_SIZE_IN_KB` under C truncating integer
division, equivalently when the size reaches (MAX_WOD_FILE_SIZE_IN_KB + 1) *
1024 = 11264 bytes; and any in-range size that triggers rotation is one the
code treats as a successful append (the failure branch is not taken). -/
theorem C5_rotation_threshold (size : Int) :
    (rotate_due MAX_WOD_FILE_SIZE_IN_KB size = true ↔
      size ≥ (MAX_WOD_FILE_SIZE_IN_KB + 1) * 1024) ∧
    (size < 2 ^ 63 → rotate_due MAX_WOD_FILE_SIZE_IN_KB size = true →
      size_lt_frame size = false) := by
  have hiff : rotate_due MAX_WOD_FILE_SIZE_IN_KB size = true ↔
      size ≥ (MAX_WOD_FILE_SIZE_IN_KB + 1) * 1024 := by
    rcases size with n | m
    · have ht : Int.tdiv (Int.ofNat n) 1024 = Int.ofNat (n / 1024) := rfl
      simp only [rotate_due, MAX_WOD_FILE_SIZE_IN_KB, gt_iff_lt, decide_eq_true_eq,
        ge_iff_le]
      rw [ht]
      simp only [Int.ofNat_eq_coe]
      omega
    · have ht : Int.tdiv (Int.negSucc m) 1024 = -Int.ofNat ((m + 1) / 1024) := rfl
      simp only [rotate_due, MAX_WOD_FILE_SIZE_IN_KB, gt_iff_lt, decide_eq_true_eq,
        ge_iff_le]
      rw [ht]
      simp only [Int.ofNat_eq_coe, Int.negSucc_eq]
      omega
  refine ⟨hiff, ?_⟩
  intro hlt hrot
  have hge : size ≥ (MAX_WOD_FILE_SIZE_IN_KB + 1) * 1024 := hiff.mp hrot
  have hge1 : size ≥ 11264 := by
    simp only [MAX_WOD_FILE_SIZE_IN_KB] at hge
    omega
  have h64 : (2 : Int) ^ 64 = 18446744073709551616 := by norm_num
  have h63 : (2 : Int) ^ 63 = 9223372036854775808 := by norm_num
  have hmod : size % (2 ^ 64 : Int) = size := by
    refine Int.emod_eq_of_lt (by omega) (by omega)
  simp only [size_lt_frame, hmod, sizeof_sensor_telemetry]
  exact decide_eq_false (by push_cast; omega)

/-- C5 witness: at the exact threshold size 11264 the rotation fires and the
failure branch is not taken. -/
theorem C5_rotation_threshold_witness :
    rotate_due MAX_WOD_FILE_SIZE_IN_KB 11264 = true ∧ size_lt_frame 11264 = false :=
  ⟨(C5_rotation_threshold 11264).1.mpr (by decide),
   (C5_rotation_threshold 11264).2 (by decide)
     ((C5_rotation_threshold 11264).1.mpr (by decide))⟩

/-- C6 counterexample: with the sample period configured off (0) and the
store period positive (60), a run over t = 0..99 performs no store events,
although the claim says store events still fire on schedule (the same run
with the default configuration performs one store event, at t = 61). -/
theorem C6_sample_guard_counterexample :
    cfg_sample_off.store_period > 0 ∧ cfg_sample_off.sample_period ≤ 0 ∧
    (loop_run cfg_sample_off append_ok 0 (init_state 0) (secsFrom 0 100)).store_events = 0 ∧
    (loop_run defaultConfig append_ok 0 (init_state 0) (secsFrom 0 100)).store_events = 1 := by
  refine ⟨by decide, by decide, by rfl, ?_⟩
  rw [run_ok_1]
  rfl

/-- C6 (amended): the WOD store block is nested inside the sample-period
guard of telem_main.c line 153, so a nonpositive sample period disables the
store transition as well as the sample transition; a nonpositive store
period disables only the store transition; with both periods positive (the
shipped configuration) the two transitions fire independently on their own
schedules. -/
theorem C6_guard_dependency :
    (∀ (cfg : Config) (env : AppendEnv) (r : Int) (st : LoopState) (now : Int),
      cfg.sample_period ≤ 0 →
        (loop_step cfg env r st now).store_events = st.store_events ∧
        (loop_step cfg env r st now).sample_events = st.sample_events) ∧
    (∀ (cfg : Config) (env : AppendEnv) (r : Int) (st : LoopState) (now : Int),
      cfg.store_period ≤ 0 →
        (loop_step cfg env r st now).store_events = st.store_events) ∧
    (loop_run defaultConfig append_ok 0 (init_state 0) (secs 601)).store_events = 9 := by
  refine ⟨?_, ?_, ?_⟩
  · intro cfg env r st now h
    unfold loop_step
    split
    · rw [if_neg (by omega : ¬cfg.sample_period > 0)]
      exact ⟨(governor_phase_fields cfg st).2.2.2.2.1,
        (governor_phase_fields cfg st).2.2.2.2.2.1⟩
    · exact ⟨rfl, rfl⟩
  · intro cfg env r st now h
    unfold loop_step
    split
    · split
      · rw [(governor_phase_fields cfg _).2.2.2.2.1,
          (sample_phase_fields cfg _ now).2.2.1,
          store_phase_of_store_off cfg env st now h]
      · exact (governor_phase_fields cfg st).2.2.2.2.1
    · rfl
  · rw [run601_eq]; rfl

/-- C6 witness: an iteration at t = 61 (when a store would be due) under the
sampling-off configuration changes neither event counter. -/
theorem C6_guard_dependency_witness :
    (loop_step cfg_sample_off append_ok 0 (init_state 0) 61).store_events =
      (init_state 0).store_events ∧
    (loop_step cfg_sample_off append_ok 0 (init_state 0) 61).sample_events =
      (init_state 0).sample_events :=
  C6_guard_dependency.1 cfg_sample_off append_ok 0 (init_state 0) 61 (by decide)

/-- C7 counterexample: in the run over the 1-second clock t = 0..600 with the
configured period P = 10, the closed interval [0, 10] has length P yet
contains no sample action (the first sample fires at t = 11), refuting the
claim that every closed interval of length P contains at least one sample
action; the run does perform sample actions. -/
theorem C7_no_starvation_counterexample :
    ((loop_run defaultConfig append_ok 0 (init_state 0) (secs 601)).sample_times.filter
      (fun t => decide ((0 : Int) ≤ t ∧ t ≤ 10))) = [] ∧
    (loop_run defaultConfig append_ok 0 (init_state 0) (secs 601)).sample_times ≠ [] := by
  rw [run601_eq]
  exact ⟨by decide, by decide⟩

/-- C7 (amended): the no-double-fire half of the claim holds in strengthened
form — in every run, any two recorded sample actions are strictly more than
one sample period apart (so no interval of length P, let alone shorter,
contains two of them); the at-least-once-per-P half fails, as sample actions
recur only every P + 1 seconds under a 1-second clock. -/
theorem C7_min_separation :
    ∀ (cfg : Config) (env : AppendEnv) (r t0 : Int) (clock : List Int),
      List.Pairwise (fun a b => b - a > cfg.sample_period)
        ((loop_run cfg env r (init_state t0) clock).sample_times) := by
  intro cfg env r t0 clock
  refine (loop_run_sample_inv cfg env r clock (init_state t0) ⟨?_, ?_⟩).1
  · exact List.Pairwise.nil
  · intro a ha
    simp [init_state] at ha

/-- C8 counterexample: at an iteration that samples and broadcasts (t = 11
from a fresh start), a failing send (result -1) produces a state identical
to a succeeding send (result 0): no counter records it and no error printf
fires, so the failure IS silently discarded, refuting the second half of the
claim. -/
theorem C8_send_failure_counterexample :
    loop_step defaultConfig append_ok (-1) (init_state 0) 11 =
      loop_step defaultConfig append_ok 0 (init_state 0) 11 ∧
    (loop_step defaultConfig append_ok (-1) (init_state 0) 11).sample_events = 1 ∧
    (loop_step defaultConfig append_ok (-1) (init_state 0) 11).g_num_of_file_io_errors = 0 ∧
    (loop_step defaultConfig append_ok (-1) (init_state 0) 11).error_prints = 0 ∧
    (loop_step defaultConfig append_ok (-1) (init_state 0) 11).running = true := by
  exact ⟨rfl, by decide, by decide, by decide, by decide⟩

/-- C8 (amended): the result of `tlm_send_sensor_telem` is discarded on
telem_main.c line 185, so the loop state does not depend on it at all — in
particular a send failure never shuts the loop down and never alters the
WOD logging behaviour — and any shutdown is caused solely by the file I/O
error counter exceeding its threshold. -/
theorem C8_send_result_ignored :
    (∀ (cfg : Config) (env : AppendEnv) (r r2 : Int) (st : LoopState) (now : Int),
      loop_step cfg env r st now = loop_step cfg env r2 st now) ∧
    (∀ (cfg : Config) (env : AppendEnv) (r : Int) (st : LoopState) (now : Int),
      st.running = true → (loop_step cfg env r st now).running = false →
        shouldShutDown (loop_step cfg env r st now).g_num_of_file_io_errors
          cfg.max_file_errors = true) := by
  constructor
  · intro cfg env r r2 st now
    rfl
  · intro cfg env r st now hrun hstop
    unfold loop_step at hstop ⊢
    rw [if_pos hrun] at hstop ⊢
    have hxr : (if cfg.sample_period > 0 then
        sample_phase cfg (store_phase cfg env st now) now else st).running = true := by
      split
      · rw [(sample_phase_fields cfg _ now).2.2.2.2, (store_phase_fields cfg env st now).2.2.2]
        exact hrun
      · exact hrun
    exact governor_phase_stop cfg _ hxr hstop

/-- C8 witness: a loop stopped by the governor (error counter 6 against
threshold 5) indeed has its counter past the threshold. -/
theorem C8_send_result_ignored_witness :
    shouldShutDown (loop_step defaultConfig append_ok 0 st_six 0).g_num_of_file_io_errors
      defaultConfig.max_file_errors = true :=
  C8_send_result_ignored.2 defaultConfig append_ok 0 st_six 0 (by decide) (by decide)

/-- C9: `tlm_send_time` sends exactly one packet, from "AMSAT-11" to
"TIME-1" with pid 0xF0, whose 4-byte payload is the current time packed
least-significant byte first; reassembling the bytes little-endian recovers
the time modulo 2^32. -/
theorem C9_time_beacon (now : Nat) :
    tlm_send_time now =
      { src_callsign := "AMSAT-11", dest_callsign := "TIME-1", pid := 0xF0
        payload := [now % 256, now / 2 ^ 8 % 256, now / 2 ^ 16 % 256, now / 2 ^ 24 % 256] } ∧
    (tlm_send_time now).payload.length = 4 ∧
    le_value (tlm_send_time now).payload = now % 2 ^ 32 := by
  have hp : (tlm_send_time now).payload =
      [now % 256, now / 2 ^ 8 % 256, now / 2 ^ 16 % 256, now / 2 ^ 24 % 256] := by
    show [now &&& 255, (now >>> 8) &&& 255, (now >>> 16) &&& 255, (now >>> 24) &&& 255] = _
    rw [land_255, shift_byte, shift_byte, shift_byte]
  refine ⟨?_, ?_, ?_⟩
  · show send_raw_packet BROADCAST_CALLSIGN TIME_CALL PID_NO_PROTOCOL _ = _
    rw [show (tlm_send_time now).payload =
      [now &&& 255, (now >>> 8) &&& 255, (now >>> 16) &&& 255, (now >>> 24) &&& 255] from rfl] at hp
    unfold send_raw_packet BROADCAST_CALLSIGN TIME_CALL PID_NO_PROTOCOL
    rw [hp]
  · rw [hp]
    rfl
  · rw [hp]
    have h8 : (2 : Nat) ^ 8 = 256 := by norm_num
    have h16 : (2 : Nat) ^ 16 = 65536 := by norm_num
    have h24 : (2 : Nat) ^ 24 = 16777216 := by norm_num
    have h32 : (2 : Nat) ^ 32 = 4294967296 := by norm_num
    simp only [le_value, List.foldr, h8, h16, h24, h32]
    omega

/-- C10: startup is asymmetric — from a start at time t0 later than the
sample period, the very first iteration fires a sample/broadcast event (the
last-sample timestamp starts at 0) but no store event; and in every run from
startup time t0, every store event happens strictly later than t0 plus the
store period (the last-store timestamp is initialised to t0). -/
theorem C10_startup_asymmetry :
    (∀ (t0 : Int) (env : AppendEnv) (r : Int),
      t0 > PERIOD_TO_SAMPLE_TELEM_IN_SECONDS →
        (loop_step defaultConfig env r (init_state t0) t0).sample_events = 1 ∧
        (loop_step defaultConfig env r (init_state t0) t0).store_events = 0) ∧
    (∀ (t0 : Int) (env : AppendEnv) (r : Int) (clock : List Int) (t : Int),
      t ∈ (loop_run defaultConfig env r (init_state t0) clock).store_times →
        t > t0 + PERIOD_TO_STORE_WOD_IN_SECONDS) := by
  constructor
  · intro t0 env r h
    have h10 : t0 > 10 := by
      simpa [PERIOD_TO_SAMPLE_TELEM_IN_SECONDS] using h
    unfold loop_step
    rw [if_pos (show (init_state t0).running = true from rfl)]
    rw [if_pos (show defaultConfig.sample_period > 0 by decide)]
    have hsp : store_phase defaultConfig env (init_state t0) t0 = init_state t0 := by
      unfold store_phase
      rw [if_pos (show defaultConfig.store_period > 0 by decide)]
      rw [if_neg (show ¬isStoreDue t0 (init_state t0).last_time_checked_wod
          defaultConfig.store_period = true by
        simp [isStoreDue, init_state, defaultConfig, PERIOD_TO_STORE_WOD_IN_SECONDS])]
    rw [hsp]
    have hsamp : sample_phase defaultConfig (init_state t0) t0 =
        { init_state t0 with
          last_time_checked_period_to_sample_telem := t0
          sample_events := 1
          sample_times := [t0] } := by
      unfold sample_phase
      rw [if_pos (show isSampleDue t0
          (init_state t0).last_time_checked_period_to_sample_telem
          defaultConfig.sample_period = true by
        simp [isSampleDue, init_state, defaultConfig, PERIOD_TO_SAMPLE_TELEM_IN_SECONDS]
        omega)]
      rfl
    rw [hsamp]
    have hg : governor_phase defaultConfig
        { init_state t0 with
          last_time_checked_period_to_sample_telem := t0
          sample_events := 1
          sample_times := [t0] } =
        { init_state t0 with
          last_time_checked_period_to_sample_telem := t0
          sample_events := 1
          sample_times := [t0] } := by
      unfold governor_phase
      rw [if_neg (by simp [shouldShutDown, init_state, defaultConfig, MAX_NUMBER_FILE_IO_ERRORS])]
    rw [hg]
    exact ⟨rfl, rfl⟩
  · intro t0 env r clock t ht
    refine (loop_run_store_inv defaultConfig env r clock t0 (init_state t0)
      ⟨le_refl t0, ?_⟩).2 t ht
    intro x hx
    simp [init_state] at hx

/-- C10 witness: starting at t0 = 11 (just past the sample period) the first
iteration samples, and a store recorded at t = 100 of a run from t0 = 11 is
more than 60 seconds after startup. -/
theorem C10_startup_asymmetry_witness :
    (loop_step defaultConfig append_ok 0 (init_state 11) 11).sample_events = 1 ∧
    (100 : Int) > 11 + PERIOD_TO_STORE_WOD_IN_SECONDS :=
  ⟨(C10_startup_asymmetry.1 11 append_ok 0 (by decide)).1,
   C10_startup_asymmetry.2 11 append_ok 0 [(100 : Int)] 100 (by decide)⟩

/-- C1 witness: at now = 11, last = 0, period = 10 the amended
characterisation holds. -/
theorem C1_due_checks_strict_witness :
    (isSampleDue 11 0 10 = true ↔ (11 : Int) - 0 ≥ 10 + 1) ∧
    (isStoreDue 11 0 10 = true ↔ (11 : Int) - 0 ≥ 10 + 1) :=
  C1_due_checks_strict 11 0 10

/-- C3 witness: a counter of 6 is exactly the first value the shutdown check
accepts against threshold 5. -/
theorem C3_failure_threshold_witness :
    shouldShutDown 6 MAX_NUMBER_FILE_IO_ERRORS = true ↔
      (6 : Int) ≥ MAX_NUMBER_FILE_IO_ERRORS + 1 :=
  C3_failure_threshold.1 6

/-- C7 witness: the separation property instantiated on a concrete
one-tick run. -/
theorem C7_min_separation_witness :
    List.Pairwise (fun a b => b - a > defaultConfig.sample_period)
      ((loop_run defaultConfig append_ok 0 (init_state 0) [(11 : Int)]).sample_times) :=
  C7_min_separation defaultConfig append_ok 0 0 [(11 : Int)]

/-- C9 witness: the little-endian reconstruction at a concrete time. -/
theorem C9_time_beacon_witness :
    le_value (tlm_send_time 5).payload = 5 % 2 ^ 32 :=
  (C9_time_beacon 5).2.2
